import Mathlib

/-!
Verification of the Warren-Cowley Short-Range-Order (SRO) parameter calculator
(`sro-script.py`).

The script's core is `calculate_sro(data, min_cutoff, max_cutoff, neighbor_shell)`,
which enumerates all ordered pairs of particle types present in the configuration,
computes for each pair a per-atom SRO array (NaN marking undefined entries) via
`_compute_sro_values`, stores the `np.nanmean` of that array as the pair's scalar
average, and labels each pair via `_generate_property_name`.

Embedding choices:
- distances and SRO values are rationals (`ℚ`); the script's floating-point NaN
  marker for an undefined entry becomes `Option ℚ` with `none` for NaN;
- the external OVITO `CutoffNeighborFinder` is an input: a function from an atom
  index to the list of neighbor records the query returns (all within
  `max_cutoff`, per the finder's contract); the aggregator itself never consults
  `max_cutoff` beyond constructing the finder, exactly as in the source;
- the Python data object is a record carrying its truthiness, whether it has a
  `particles` attribute, the per-particle type array, the type-name lookup of the
  type registry (empty string when a name is unavailable), and the neighbor query;
- `raise ValueError` becomes `Except.error`.
-/

/-- A neighbor record produced by `finder.find(index)`: the neighbor atom's
index and its distance. -/
structure Neighbor where
  index : Nat
  distance : ℚ
deriving DecidableEq, Repr, Inhabited

/-- The OVITO data object as `calculate_sro` consumes it: `truthy` is the Python
truth value of `data`, `hasParticles` is `hasattr(data, 'particles')`, `ptypes`
is the per-particle type-ID array, `typeName` gives each type ID its registered
name (the empty string standing for an unavailable name), and `find` is the
cutoff neighbor query built from `max_cutoff` (it returns every neighbor within
`max_cutoff`). -/
structure DataObject where
  truthy : Bool
  hasParticles : Bool
  ptypes : List Nat
  typeName : Nat → String
  find : Nat → List Neighbor

/-- The line `valid_neighbors = [n for n in neighbors if n.distance >= min_cutoff]`
of `_compute_sro_values`: the query's result filtered by the minimum-distance
threshold only. -/
def valid_neighbors_of (find : Nat → List Neighbor) (min_cutoff : ℚ)
    (index : Nat) : List Neighbor :=
  (find index).filter fun n => min_cutoff ≤ n.distance

/-- `sum(1 for n in valid_neighbors if ptypes[n.index] == type_j)`: the number
of valid neighbors whose species is `type_j`. Out-of-range neighbor indices
default to type 0 (the finder only returns in-range indices in practice). -/
def num_type_j_of (ptypes : List Nat) (type_j : Nat)
    (valid : List Neighbor) : Nat :=
  (valid.filter fun n => ptypes.getD n.index 0 = type_j).length

/-- `_compute_sro_values(finder, ptypes, type_i, type_j, min_cutoff, c_j)`:
an array with one slot per particle, initialized to NaN (`none`); for each
particle of type `type_i` with a non-empty filtered neighbor list the slot
becomes `1 - num_type_j_neighbors / (num_neighbors * c_j)`. -/
def compute_sro_values (find : Nat → List Neighbor) (ptypes : List Nat)
    (type_i type_j : Nat) (min_cutoff : ℚ) (c_j : ℚ) : List (Option ℚ) :=
  (List.range ptypes.length).map fun index =>
    if ptypes.getD index 0 = type_i then
      let valid := valid_neighbors_of find min_cutoff index
      if valid.isEmpty then
        none
      else
        some (1 - (num_type_j_of ptypes type_j valid : ℚ) /
          ((valid.length : ℚ) * c_j))
    else
      none

/-- Models `np.nanmean`: the mean of the non-NaN entries, NaN (`none`) when
every entry is NaN. -/
def nanmean (values : List (Option ℚ)) : Option ℚ :=
  let defined := values.filterMap id
  if defined.isEmpty then none
  else some (defined.sum / (defined.length : ℚ))

/-- `_generate_property_name(neighbor_shell, type_i, type_j)`: the label
`a_<shell>_<name_i>-<name_j>`, substituting the numeric type ID for a species
whose name is unavailable (`type.name if type.name else str(type.id)`). -/
def generate_property_name (neighbor_shell : Nat) (type_i type_j : Nat)
    (typeName : Nat → String) : String :=
  let name_i := if typeName type_i = "" then toString type_i else typeName type_i
  let name_j := if typeName type_j = "" then toString type_j else typeName type_j
  "a_" ++ toString neighbor_shell ++ "_" ++ name_i ++ "-" ++ name_j

/-- One row of the result: the ordered type pair, its generated property name,
the per-atom SRO array written to the particles (`prop[:] = sro_values`), and
the scalar average stored into `data.attributes` and the table's y column. -/
structure PairResult where
  typeI : Nat
  typeJ : Nat
  propName : String
  sroValues : List (Option ℚ)
  avgSro : Option ℚ
deriving DecidableEq, Repr, Inhabited

/-- `calculate_sro(data, min_cutoff, max_cutoff, neighbor_shell)`.

Raises `ValueError` (`Except.error`) exactly on
`not data or not hasattr(data, 'particles')`, before anything is computed or
written. Otherwise it forms `pair_combinations = itertools.product(set(ptypes),
set(ptypes))` (embedded as the product of the deduplicated type list with
itself), and for each ordered pair computes the label, the global concentration
`c_j = count(ptypes == type_j) / particle_count`, the per-atom SRO array, and
its `nanmean`. The returned list carries, in order, every per-pair property the
script creates, the averages it stores, and the rows of the emitted table.
`max_cutoff` is consumed only by the neighbor-finder construction, which the
embedding receives ready-made as `data.find`. -/
def calculate_sro (data : DataObject) (min_cutoff : ℚ) (max_cutoff : ℚ)
    (neighbor_shell : Nat) : Except String (List PairResult) :=
  if !data.truthy || !data.hasParticles then
    Except.error "Invalid data object or missing particle information"
  else
    let ptypes := data.ptypes
    let pair_combinations := ptypes.dedup ×ˢ ptypes.dedup
    Except.ok <| pair_combinations.map fun p =>
      let prop_name := generate_property_name neighbor_shell p.1 p.2 data.typeName
      let c_j := (ptypes.count p.2 : ℚ) / (ptypes.length : ℚ)
      let sro_values := compute_sro_values data.find ptypes p.1 p.2 min_cutoff c_j
      { typeI := p.1
        typeJ := p.2
        propName := prop_name
        sroValues := sro_values
        avgSro := nanmean sro_values }

/-- Helper: the per-particle slot of `compute_sro_values` at an in-range index,
expressed by cases on the particle's species and on emptiness of the filtered
neighbor list. -/
theorem compute_sro_values_getD (find : Nat → List Neighbor) (ptypes : List Nat)
    (type_i type_j : Nat) (min_cutoff c_j : ℚ) (index : Nat)
    (hidx : index < ptypes.length) :
    (compute_sro_values find ptypes type_i type_j min_cutoff c_j).getD index none =
      (if ptypes.getD index 0 = type_i then
        if (valid_neighbors_of find min_cutoff index).isEmpty then none
        else some (1 -
          (num_type_j_of ptypes type_j (valid_neighbors_of find min_cutoff index) : ℚ) /
          (((valid_neighbors_of find min_cutoff index).length : ℚ) * c_j))
      else none) := by
  unfold compute_sro_values
  rw [List.getD_eq_getElem?_getD, List.getElem?_map, List.getElem?_range hidx]
  rfl

/-- C1: for every atom of species `type_i` whose filtered neighbor set
(the query's neighbors at distance at least `min_cutoff`) is non-empty, and
with `c_j > 0`, the per-atom SRO slot for the ordered pair holds
`1 - (n_j / n) / c_j`, where `n` is the number of filtered neighbors and
`n_j` the number of those of species `type_j`. -/
theorem per_atom_sro_eq_one_sub_fraction_div_concentration
    (find : Nat → List Neighbor) (ptypes : List Nat) (type_i type_j : Nat)
    (min_cutoff c_j : ℚ) (index : Nat)
    (hidx : index < ptypes.length)
    (hsp : ptypes.getD index 0 = type_i)
    (hne : valid_neighbors_of find min_cutoff index ≠ [])
    (hc : 0 < c_j) :
    (compute_sro_values find ptypes type_i type_j min_cutoff c_j).getD index none =
      some (1 -
        ((num_type_j_of ptypes type_j (valid_neighbors_of find min_cutoff index) : ℚ) /
          ((valid_neighbors_of find min_cutoff index).length : ℚ)) / c_j) := by
  rw [compute_sro_values_getD find ptypes type_i type_j min_cutoff c_j index hidx,
    if_pos hsp, if_neg (by simp [hne]), div_div]

/-- Concrete two-atom configuration for the witnesses: particles of types 1
and 2 (named A and B), each having the other as its only neighbor at
distance 1. -/
def d0 : DataObject where
  truthy := true
  hasParticles := true
  ptypes := [1, 2]
  typeName := fun t => if t = 1 then "A" else if t = 2 then "B" else ""
  find := fun i => if i = 0 then [⟨1, 1⟩] else [⟨0, 1⟩]

/-- C1 witness: atom 0 of the concrete configuration, pair (1, 2),
`min_cutoff = 0`, `c_j = 1`. -/
theorem per_atom_sro_eq_one_sub_fraction_div_concentration_witness :
    (compute_sro_values d0.find [1, 2] 1 2 0 1).getD 0 none =
      some (1 -
        ((num_type_j_of [1, 2] 2 (valid_neighbors_of d0.find 0 0) : ℚ) /
          ((valid_neighbors_of d0.find 0 0).length : ℚ)) / 1) :=
  per_atom_sro_eq_one_sub_fraction_div_concentration d0.find [1, 2] 1 2 0 1 0
    (by decide) (by decide) (by decide) (by decide)

/-- C4: the per-atom slot for the ordered pair is defined (differs from the
NaN marker, embedded as `none`, which is distinct from any computed value
`some v`, in particular from `some 0`) exactly when the atom has species
`type_i` and its filtered neighbor set is non-empty. -/
theorem per_atom_sro_defined_iff (find : Nat → List Neighbor) (ptypes : List Nat)
    (type_i type_j : Nat) (min_cutoff c_j : ℚ) (index : Nat)
    (hidx : index < ptypes.length) :
    (compute_sro_values find ptypes type_i type_j min_cutoff c_j).getD index none ≠ none ↔
      (ptypes.getD index 0 = type_i ∧ valid_neighbors_of find min_cutoff index ≠ []) := by
  rw [compute_sro_values_getD find ptypes type_i type_j min_cutoff c_j index hidx]
  by_cases h1 : ptypes.getD index 0 = type_i
  · by_cases h2 : valid_neighbors_of find min_cutoff index = []
    · simp [h1, h2]
    · simp [h1, h2]
  · simp [h1]

/-- C4 witness: atom 1 of the concrete configuration, pair (2, 1),
`min_cutoff = 0`. -/
theorem per_atom_sro_defined_iff_witness :
    (compute_sro_values d0.find [1, 2] 2 1 0 1).getD 1 none ≠ none ↔
      ([1, 2].getD 1 0 = 2 ∧ valid_neighbors_of d0.find 0 1 ≠ []) :=
  per_atom_sro_defined_iff d0.find [1, 2] 2 1 0 1 1 (by decide)

/-- C10: every defined per-atom SRO value is at most 1 when `c_j > 0`:
the subtracted term `n_j / (n * c_j)` is non-negative. -/
theorem per_atom_sro_le_one (find : Nat → List Neighbor) (ptypes : List Nat)
    (type_i type_j : Nat) (min_cutoff c_j : ℚ) (index : Nat) (v : ℚ)
    (hc : 0 < c_j)
    (hv : (compute_sro_values find ptypes type_i type_j min_cutoff c_j).getD index none =
      some v) :
    v ≤ 1 := by
  by_cases hidx : index < ptypes.length
  · rw [compute_sro_values_getD find ptypes type_i type_j min_cutoff c_j index hidx] at hv
    by_cases h1 : ptypes.getD index 0 = type_i
    · by_cases h2 : (valid_neighbors_of find min_cutoff index).isEmpty = true
      · rw [if_pos h1, if_pos h2] at hv
        exact absurd hv (by simp)
      · rw [if_pos h1, if_neg h2] at hv
        obtain rfl := Option.some.inj hv
        exact sub_le_self _
          (div_nonneg (Nat.cast_nonneg _) (mul_nonneg (Nat.cast_nonneg _) hc.le))
    · rw [if_neg h1] at hv
      exact absurd hv (by simp)
  · rw [List.getD_eq_getElem?_getD, List.getElem?_eq_none] at hv
    · exact absurd hv (by simp)
    · simpa [compute_sro_values] using Nat.le_of_not_lt hidx

/-- C10 witness: the defined value of atom 0 for pair (1, 2) in the concrete
configuration, with `c_j = 1`, is at most 1. -/
theorem per_atom_sro_le_one_witness :
    1 - (num_type_j_of [1, 2] 2 (valid_neighbors_of d0.find 0 0) : ℚ) /
      (((valid_neighbors_of d0.find 0 0).length : ℚ) * 1) ≤ 1 :=
  per_atom_sro_le_one d0.find [1, 2] 1 2 0 1 0
    (1 - (num_type_j_of [1, 2] 2 (valid_neighbors_of d0.find 0 0) : ℚ) /
      (((valid_neighbors_of d0.find 0 0).length : ℚ) * 1))
    (by decide) rfl

/-- C7: a neighbor contributes to the filtered set exactly when the cutoff
query returned it and its distance is at least `min_cutoff`; the aggregator
applies no further `max_cutoff` check of its own. -/
theorem neighbor_counted_iff_returned_and_above_min
    (find : Nat → List Neighbor) (min_cutoff : ℚ) (index : Nat) (nb : Neighbor) :
    nb ∈ valid_neighbors_of find min_cutoff index ↔
      nb ∈ find index ∧ min_cutoff ≤ nb.distance := by
  simp [valid_neighbors_of]

/-- Helper: a successful run returns exactly the per-pair body mapped over the
product of the deduplicated type list with itself. -/
theorem calculate_sro_ok_elim (data : DataObject) (min_cutoff max_cutoff : ℚ)
    (neighbor_shell : Nat) (rs : List PairResult)
    (h : calculate_sro data min_cutoff max_cutoff neighbor_shell = Except.ok rs) :
    rs = (data.ptypes.dedup ×ˢ data.ptypes.dedup).map fun p =>
      { typeI := p.1
        typeJ := p.2
        propName := generate_property_name neighbor_shell p.1 p.2 data.typeName
        sroValues := compute_sro_values data.find data.ptypes p.1 p.2 min_cutoff
          ((data.ptypes.count p.2 : ℚ) / (data.ptypes.length : ℚ))
        avgSro := nanmean (compute_sro_values data.find data.ptypes p.1 p.2 min_cutoff
          ((data.ptypes.count p.2 : ℚ) / (data.ptypes.length : ℚ))) } := by
  unfold calculate_sro at h
  by_cases hb : (!data.truthy || !data.hasParticles) = true
  · rw [if_pos hb] at h
    exact Except.noConfusion h
  · rw [if_neg hb] at h
    exact (Except.ok.inj h).symm

/-- C9: `calculate_sro` raises `ValueError` exactly when the data object is
falsy or lacks the `particles` attribute; the check precedes every per-pair
computation, so on this error nothing is computed, returned, or written (the
error carries only the fixed message). -/
theorem calculate_sro_error_iff_invalid_data (data : DataObject)
    (min_cutoff max_cutoff : ℚ) (neighbor_shell : Nat) :
    ((calculate_sro data min_cutoff max_cutoff neighbor_shell).isOk = false ↔
      (data.truthy = false ∨ data.hasParticles = false)) ∧
    ∀ e, calculate_sro data min_cutoff max_cutoff neighbor_shell = Except.error e →
      e = "Invalid data object or missing particle information" := by
  unfold calculate_sro
  by_cases h1 : data.truthy <;> by_cases h2 : data.hasParticles <;>
    simp [h1, h2, Except.isOk, Except.toBool]

/-- C2 counterexample: on a truthy data object with particles and
`min_cutoff = 5 ≥ max_cutoff = 3`, `calculate_sro` succeeds instead of
failing with an input error. -/
theorem calculate_sro_min_ge_max_no_error :
    (5 : ℚ) ≥ 3 ∧ (calculate_sro d0 5 3 1).isOk = true :=
  ⟨by decide, rfl⟩

/-- C2 amended: the only input-error check is on the data object itself
(falsy or without a `particles` attribute); whenever the data object passes
it, the call returns a result — it performs no validation of an empty atom
collection, of species labels, of `min_cutoff ≥ max_cutoff`, or of a
non-positive `max_cutoff`. -/
theorem calculate_sro_ok_of_valid_data (data : DataObject)
    (min_cutoff max_cutoff : ℚ) (neighbor_shell : Nat)
    (h1 : data.truthy = true) (h2 : data.hasParticles = true) :
    (calculate_sro data min_cutoff max_cutoff neighbor_shell).isOk = true := by
  unfold calculate_sro
  simp [h1, h2, Except.isOk, Except.toBool]

/-- C2 amended witness: the concrete valid configuration with
`min_cutoff = 5 ≥ max_cutoff = 3` completes without an input error. -/
theorem calculate_sro_ok_of_valid_data_witness :
    (calculate_sro d0 5 3 1).isOk = true :=
  calculate_sro_ok_of_valid_data d0 5 3 1 rfl rfl

/-- C3: each pair's scalar SRO is the mean of exactly the defined per-atom
values of that pair: undefined entries are excluded from both the sum and the
count, and when every per-atom value is undefined the average is undefined
(`none`), not zero. -/
theorem pair_average_is_mean_of_defined_values (data : DataObject)
    (min_cutoff max_cutoff : ℚ) (neighbor_shell : Nat) (rs : List PairResult)
    (h : calculate_sro data min_cutoff max_cutoff neighbor_shell = Except.ok rs)
    (pr : PairResult) (hm : pr ∈ rs) :
    pr.avgSro = if (pr.sroValues.filterMap id).isEmpty then none
      else some ((pr.sroValues.filterMap id).sum /
        ((pr.sroValues.filterMap id).length : ℚ)) := by
  have hrs := calculate_sro_ok_elim data min_cutoff max_cutoff neighbor_shell rs h
  subst hrs
  obtain ⟨p, hp, rfl⟩ := List.mem_map.1 hm
  rfl

/-- The result list of the concrete two-atom configuration run with
`min_cutoff = 0`, `max_cutoff = 3`, shell 1. -/
def rs0 : List PairResult := (calculate_sro d0 0 3 1).toOption.getD []

/-- Helper: the concrete run succeeds and returns `rs0`. -/
theorem rs0_ok : calculate_sro d0 0 3 1 = Except.ok rs0 := rfl

/-- Helper: `rs0` is non-empty. -/
theorem rs0_ne_nil : rs0 ≠ [] :=
  List.ne_nil_of_length_pos (by rw [show rs0.length = 4 from rfl]; omega)

/-- C3 witness: the first pair of the concrete run. -/
theorem pair_average_is_mean_of_defined_values_witness :
    rs0.head!.avgSro = if (rs0.head!.sroValues.filterMap id).isEmpty then none
      else some ((rs0.head!.sroValues.filterMap id).sum /
        ((rs0.head!.sroValues.filterMap id).length : ℚ)) :=
  pair_average_is_mean_of_defined_values d0 0 3 1 rs0 rs0_ok rs0.head!
    (List.head!_mem_self rs0_ne_nil)

/-- C5: the concentration entering every per-atom SRO value of a pair is the
global fraction `count(species == j) / total_atom_count` over the full atom
population — one value per pair, shared by all atoms, never taken from an
individual atom's neighbor set. -/
theorem concentration_is_global_fraction (data : DataObject)
    (min_cutoff max_cutoff : ℚ) (neighbor_shell : Nat) (rs : List PairResult)
    (h : calculate_sro data min_cutoff max_cutoff neighbor_shell = Except.ok rs)
    (pr : PairResult) (hm : pr ∈ rs) :
    pr.sroValues = compute_sro_values data.find data.ptypes pr.typeI pr.typeJ
      min_cutoff ((data.ptypes.count pr.typeJ : ℚ) / (data.ptypes.length : ℚ)) := by
  have hrs := calculate_sro_ok_elim data min_cutoff max_cutoff neighbor_shell rs h
  subst hrs
  obtain ⟨p, hp, rfl⟩ := List.mem_map.1 hm
  rfl

/-- C5 witness: the first pair of the concrete run. -/
theorem concentration_is_global_fraction_witness :
    rs0.head!.sroValues = compute_sro_values d0.find d0.ptypes rs0.head!.typeI
      rs0.head!.typeJ 0
      ((d0.ptypes.count rs0.head!.typeJ : ℚ) / (d0.ptypes.length : ℚ)) :=
  concentration_is_global_fraction d0 0 3 1 rs0 rs0_ok rs0.head!
    (List.head!_mem_self rs0_ne_nil)

/-- C8: a successful run emits exactly one result per ordered pair drawn from
the species set with itself — `|species set|²` results, with no duplicated
pair — and each result is keyed `a_<shell>_<name_i>-<name_j>`, the numeric
type ID standing in for a species whose name is unavailable. -/
theorem one_result_per_ordered_pair_with_formatted_label (data : DataObject)
    (min_cutoff max_cutoff : ℚ) (neighbor_shell : Nat) (rs : List PairResult)
    (h : calculate_sro data min_cutoff max_cutoff neighbor_shell = Except.ok rs) :
    rs.length = data.ptypes.dedup.length ^ 2 ∧
    rs.map (fun pr => (pr.typeI, pr.typeJ)) = data.ptypes.dedup ×ˢ data.ptypes.dedup ∧
    (rs.map fun pr => (pr.typeI, pr.typeJ)).Nodup ∧
    ∀ pr ∈ rs, pr.propName =
      "a_" ++ toString neighbor_shell ++ "_" ++
        (if data.typeName pr.typeI = "" then toString pr.typeI
          else data.typeName pr.typeI) ++ "-" ++
        (if data.typeName pr.typeJ = "" then toString pr.typeJ
          else data.typeName pr.typeJ) := by
  have hrs := calculate_sro_ok_elim data min_cutoff max_cutoff neighbor_shell rs h
  subst hrs
  have hpairs : (((data.ptypes.dedup ×ˢ data.ptypes.dedup).map fun p =>
      ({ typeI := p.1
         typeJ := p.2
         propName := generate_property_name neighbor_shell p.1 p.2 data.typeName
         sroValues := compute_sro_values data.find data.ptypes p.1 p.2 min_cutoff
           ((data.ptypes.count p.2 : ℚ) / (data.ptypes.length : ℚ))
         avgSro := nanmean (compute_sro_values data.find data.ptypes p.1 p.2 min_cutoff
           ((data.ptypes.count p.2 : ℚ) / (data.ptypes.length : ℚ))) } : PairResult)).map
      fun pr => (pr.typeI, pr.typeJ)) = data.ptypes.dedup ×ˢ data.ptypes.dedup := by
    rw [List.map_map]
    exact List.map_id _
  refine ⟨?_, hpairs, ?_, ?_⟩
  · rw [List.length_map, List.length_product, pow_two]
  · rw [hpairs]
    exact (List.nodup_dedup _).product (List.nodup_dedup _)
  · intro pr hm
    obtain ⟨p, hp, rfl⟩ := List.mem_map.1 hm
    rfl

/-- C8 witness: the concrete run emits its four labeled results, one per
ordered pair of the two present species. -/
theorem one_result_per_ordered_pair_with_formatted_label_witness :
    rs0.length = d0.ptypes.dedup.length ^ 2 ∧
    rs0.map (fun pr => (pr.typeI, pr.typeJ)) = d0.ptypes.dedup ×ˢ d0.ptypes.dedup ∧
    (rs0.map fun pr => (pr.typeI, pr.typeJ)).Nodup ∧
    ∀ pr ∈ rs0, pr.propName =
      "a_" ++ toString 1 ++ "_" ++
        (if d0.typeName pr.typeI = "" then toString pr.typeI
          else d0.typeName pr.typeI) ++ "-" ++
        (if d0.typeName pr.typeJ = "" then toString pr.typeJ
          else d0.typeName pr.typeJ) :=
  one_result_per_ordered_pair_with_formatted_label d0 0 3 1 rs0 rs0_ok

/-- C6: a species `j` absent from the configuration (count zero) is excluded
from pair enumeration, so its zero concentration can never be divided by:
the run still completes, no emitted pair has `j` as its second component
(hence every per-atom value of a pair ending in `j` — there are none — is
the undefined marker), every emitted pair's second species has positive
count, and every emitted pair computes its per-atom values normally. -/
theorem absent_species_excluded_and_other_pairs_compute (data : DataObject)
    (min_cutoff max_cutoff : ℚ) (neighbor_shell j : Nat)
    (h1 : data.truthy = true) (h2 : data.hasParticles = true)
    (hj : data.ptypes.count j = 0) :
    (calculate_sro data min_cutoff max_cutoff neighbor_shell).isOk = true ∧
    ∀ rs, calculate_sro data min_cutoff max_cutoff neighbor_shell = Except.ok rs →
      ∀ pr ∈ rs,
        (pr.typeJ = j → ∀ o ∈ pr.sroValues, o = none) ∧
        0 < data.ptypes.count pr.typeJ ∧
        pr.sroValues = compute_sro_values data.find data.ptypes pr.typeI pr.typeJ
          min_cutoff ((data.ptypes.count pr.typeJ : ℚ) / (data.ptypes.length : ℚ)) := by
  constructor
  · unfold calculate_sro
    simp [h1, h2, Except.isOk, Except.toBool]
  · intro rs h pr hm
    have hrs := calculate_sro_ok_elim data min_cutoff max_cutoff neighbor_shell rs h
    subst hrs
    obtain ⟨p, hp, rfl⟩ := List.mem_map.1 hm
    obtain ⟨a, b⟩ := p
    obtain ⟨_, hb⟩ := List.mem_product.1 hp
    have hcount : 0 < data.ptypes.count b :=
      List.count_pos_iff.2 (List.mem_dedup.1 hb)
    refine ⟨?_, hcount, rfl⟩
    intro hbj
    have hb2 : b = j := hbj
    rw [hb2] at hcount
    exact absurd hj (by omega)

/-- C6 witness: species 3 is absent from the concrete configuration, whose
run completes with both present-species pairs computing normally. -/
theorem absent_species_excluded_and_other_pairs_compute_witness :
    (calculate_sro d0 0 3 1).isOk = true ∧
    ∀ rs, calculate_sro d0 0 3 1 = Except.ok rs →
      ∀ pr ∈ rs,
        (pr.typeJ = 3 → ∀ o ∈ pr.sroValues, o = none) ∧
        0 < d0.ptypes.count pr.typeJ ∧
        pr.sroValues = compute_sro_values d0.find d0.ptypes pr.typeI pr.typeJ 0
          ((d0.ptypes.count pr.typeJ : ℚ) / (d0.ptypes.length : ℚ)) :=
  absent_species_excluded_and_other_pairs_compute d0 0 3 1 3 rfl rfl (by decide)
